import Mathlib

/-!
Verification of the roommate-matching engine of the shared-housing
repository: a shallow embedding of `roommate_matching/services.py`,
`roommate_matching/models.py` and the single-pair API view, together with
theorems settling the specification claims about them.

Python values are embedded as follows: floats and Decimals become `ℚ`,
ints become `ℤ`, `None`-able fields become `Option`, Python truthiness of
the embedded values is made explicit through the `pyTruthy*` helpers, and
Python strings become `String` (compared by code points, as Python does).
-/

namespace RoommateMatching

/-- Calendar date (for `date_of_birth` and `timezone.now().date()`). -/
structure Date where
  year : ℤ
  month : ℤ
  day : ℤ
deriving DecidableEq

/-- Embedding of `profiles.models.UserProfile`, restricted to the fields the
matching engine reads.  Nullable columns are `Option`; non-null integer
columns are `ℤ`; non-null character columns are `String` (possibly empty). -/
structure UserProfile where
  date_of_birth : Option Date
  gender : String
  preferred_locations : List String
  min_budget : Option ℚ
  max_budget : Option ℚ
  cleanliness_level : ℤ
  noise_tolerance : ℤ
  social_level : ℤ
  smoker : String
  drinking : String
  pets : String
  schedule_type : String
  works_from_home : Bool
  preferred_age_min : Option ℤ
  preferred_age_max : Option ℤ
  preferred_gender : String
deriving DecidableEq

/-- Embedding of `roommate_matching.models.MatchingCriteria`. -/
structure MatchingCriteria where
  budget_importance : ℤ
  location_importance : ℤ
  lifestyle_importance : ℤ
  schedule_importance : ℤ
  habits_importance : ℤ
  deal_breakers : List String
  strict_age_preference : Bool
  strict_gender_preference : Bool
deriving DecidableEq

/-- A user as the engine sees it: an id, an optional profile row (absent row
models `UserProfile.DoesNotExist`) and optional matching criteria
(`getattr(user, 'matching_criteria', None)`). -/
structure User where
  id : ℕ
  profile : Option UserProfile
  matching_criteria : Option MatchingCriteria
deriving DecidableEq

/-- Python truthiness of an optional Decimal: `None` and `0` are falsy. -/
def pyTruthyQ (o : Option ℚ) : Bool :=
  match o with
  | none => false
  | some v => decide (v ≠ 0)

/-- Python truthiness of an int: `0` is falsy. -/
def pyTruthyInt (n : ℤ) : Bool := decide (n ≠ 0)

/-- Python truthiness of an optional int. -/
def pyTruthyOptInt (o : Option ℤ) : Bool :=
  match o with
  | none => false
  | some v => decide (v ≠ 0)

/-- Python truthiness of a string: the empty string is falsy. -/
def pyTruthyStr (s : String) : Bool := decide (s ≠ ("" : String))

/-- ASCII lower-casing of one character, as `str.lower` does on ASCII data. -/
def lowerChar (c : Char) : Char :=
  if 65 ≤ c.toNat ∧ c.toNat ≤ 90 then Char.ofNat (c.toNat + 32) else c

/-- Lower-casing of a string (`str.lower`). -/
def strLower (s : String) : String := ⟨s.data.map lowerChar⟩

/-- Does the second character list occur at the head of the first? -/
def headMatch : List Char → List Char → Bool
  | [], _ => true
  | _ :: _, [] => false
  | a :: as, b :: bs => a == b && headMatch as bs

/-- Does `pat` occur as a contiguous run inside `s`? -/
def hasSub : List Char → List Char → Bool
  | [], pat => headMatch pat []
  | c :: rest, pat => headMatch pat (c :: rest) || hasSub rest pat

/-- Python substring containment `pat in s`. -/
def strContains (s pat : String) : Bool := hasSub s.data pat.data

/-- Strict lexicographic order on character lists by code point, matching
Python string comparison. -/
def lexLt : List Char → List Char → Bool
  | [], [] => false
  | [], _ :: _ => true
  | _ :: _, [] => false
  | a :: as, b :: bs => if a < b then true else if b < a then false else lexLt as bs

/-- Embedding of `tuple(sorted([a, b]))` for two Python strings. -/
def sortedPair (a b : String) : String × String :=
  if lexLt b.data a.data then (b, a) else (a, b)

/-- List with duplicates removed, used to model `len(set(xs))`-style
cardinalities; keeps one copy of every element of the input. -/
def dedupList : List String → List String
  | [] => []
  | x :: xs =>
    let r := dedupList xs
    if x ∈ r then r else x :: r

/-- Cardinality of `set(a) & set(b)` for two Python lists of strings. -/
def interCount (a b : List String) : ℕ :=
  (dedupList a).countP (fun x => decide (x ∈ b))

/-- Embedding of `CompatibilityCalculator._calculate_budget_compatibility`. -/
def calculate_budget_compatibility (p1 p2 : UserProfile) : ℚ :=
  if pyTruthyQ p1.min_budget && pyTruthyQ p1.max_budget &&
     pyTruthyQ p2.min_budget && pyTruthyQ p2.max_budget then
    let mn1 := p1.min_budget.getD 0
    let mx1 := p1.max_budget.getD 0
    let mn2 := p2.min_budget.getD 0
    let mx2 := p2.max_budget.getD 0
    let overlap_start := max mn1 mn2
    let overlap_end := min mx1 mx2
    if overlap_start > overlap_end then 0
    else
      let user1_range_size := mx1 - mn1
      let user2_range_size := mx2 - mn2
      let overlap_size := overlap_end - overlap_start
      let avg_range_size := (user1_range_size + user2_range_size) / 2
      let overlap_ratio := if avg_range_size > 0 then overlap_size / avg_range_size else 0
      min 100 (overlap_ratio * 100)
  else 50

/-- Embedding of `CompatibilityCalculator._calculate_location_compatibility`. -/
def calculate_location_compatibility (p1 p2 : UserProfile) : ℚ :=
  let locations1 := p1.preferred_locations
  let locations2 := p2.preferred_locations
  if locations1 = [] ∨ locations2 = [] then 60
  else
    let common := interCount (locations1.map strLower) (locations2.map strLower)
    if common ≠ 0 then
      min 100 ((common : ℚ) / ((max locations1.length locations2.length : ℕ) : ℚ) * 100 + 50)
    else 30

/-- The drinking-compatibility lookup table of the source, keyed by the
sorted category pair; absent keys fall back to 70 (`dict.get(key, 70)`). -/
def drinking_table (k : String × String) : ℚ :=
  if k = (("no"), ("no")) then 100
  else if k = (("no"), ("social")) then 80
  else if k = (("no"), ("regular")) then 40
  else if k = (("social"), ("social")) then 100
  else if k = (("social"), ("regular")) then 85
  else if k = (("regular"), ("regular")) then 100
  else 70

/-- The pet-compatibility lookup table of the source. -/
def pets_table (k : String × String) : ℚ :=
  if k = (("no"), ("no")) then 100
  else if k = (("no"), ("yes")) then 30
  else if k = (("yes"), ("yes")) then 90
  else 70

/-- The schedule-compatibility lookup table of the source. -/
def schedule_table (k : String × String) : ℚ :=
  if k = (("early_bird"), ("early_bird")) then 100
  else if k = (("early_bird"), ("regular")) then 80
  else if k = (("early_bird"), ("night_owl")) then 40
  else if k = (("regular"), ("regular")) then 100
  else if k = (("regular"), ("night_owl")) then 75
  else if k = (("night_owl"), ("night_owl")) then 100
  else 70

/-- Embedding of `CompatibilityCalculator._calculate_lifestyle_compatibility`:
the `scores` list accumulated by the source, in source order. -/
def lifestyle_scores (p1 p2 : UserProfile) : List ℚ :=
  (if pyTruthyInt p1.social_level && pyTruthyInt p2.social_level then
    [max 0 (100 - 15 * |(p1.social_level : ℚ) - (p2.social_level : ℚ)|)]
  else []) ++
  (if pyTruthyStr p1.smoker && pyTruthyStr p2.smoker then
    [if p1.smoker = p2.smoker then 100
     else if (p1.smoker = ("no") ∨ p2.smoker = ("no")) ∧
             (p1.smoker = ("yes") ∨ p2.smoker = ("yes")) then 20
     else 70]
  else []) ++
  (if pyTruthyStr p1.drinking && pyTruthyStr p2.drinking then
    [drinking_table (sortedPair p1.drinking p2.drinking)]
  else []) ++
  (if pyTruthyStr p1.pets && pyTruthyStr p2.pets then
    [pets_table (sortedPair p1.pets p2.pets)]
  else [])

/-- Embedding of `CompatibilityCalculator._calculate_lifestyle_compatibility`. -/
def calculate_lifestyle_compatibility (p1 p2 : UserProfile) : ℚ :=
  let scores := lifestyle_scores p1 p2
  if scores = [] then 50 else scores.sum / (scores.length : ℚ)

/-- Embedding of `CompatibilityCalculator._calculate_schedule_compatibility`. -/
def calculate_schedule_compatibility (p1 p2 : UserProfile) : ℚ :=
  if pyTruthyStr p1.schedule_type && pyTruthyStr p2.schedule_type then
    let base := schedule_table (sortedPair p1.schedule_type p2.schedule_type)
    if p1.works_from_home = p2.works_from_home then min 100 (base + 10) else base
  else 50

/-- Embedding of `CompatibilityCalculator._calculate_habits_compatibility`. -/
def calculate_habits_compatibility (p1 p2 : UserProfile) : ℚ :=
  if pyTruthyInt p1.cleanliness_level && pyTruthyInt p2.cleanliness_level then
    let cleanliness_score := max 0 (100 - 12 * |(p1.cleanliness_level : ℚ) - (p2.cleanliness_level : ℚ)|)
    let noise_score :=
      if pyTruthyInt p1.noise_tolerance && pyTruthyInt p2.noise_tolerance then
        max 0 (100 - 12 * |(p1.noise_tolerance : ℚ) - (p2.noise_tolerance : ℚ)|)
      else 50
    (cleanliness_score + noise_score) / 2
  else 50

/-- The five dimension weights used for the weighted overall score. -/
structure Weights where
  budget : ℚ
  location : ℚ
  lifestyle : ℚ
  schedule : ℚ
  habits : ℚ
deriving DecidableEq

/-- The static default weights of `CompatibilityCalculator.__init__`. -/
def default_weights : Weights := ⟨1/4, 1/5, 1/5, 3/20, 1/5⟩

/-- `getattr(criteria, component_importance, 3) if criteria else 3`. -/
def importanceOf (c : Option MatchingCriteria) (f : MatchingCriteria → ℤ) : ℚ :=
  match c with
  | none => 3
  | some cr => (f cr : ℚ)

/-- Embedding of `CompatibilityCalculator._get_personalized_weights`. -/
def get_personalized_weights (c1 c2 : Option MatchingCriteria) : Weights :=
  if c1.isNone ∧ c2.isNone then default_weights
  else
    let ib := (importanceOf c1 (·.budget_importance) + importanceOf c2 (·.budget_importance)) / 2
    let il := (importanceOf c1 (·.location_importance) + importanceOf c2 (·.location_importance)) / 2
    let ilf := (importanceOf c1 (·.lifestyle_importance) + importanceOf c2 (·.lifestyle_importance)) / 2
    let isc := (importanceOf c1 (·.schedule_importance) + importanceOf c2 (·.schedule_importance)) / 2
    let ih := (importanceOf c1 (·.habits_importance) + importanceOf c2 (·.habits_importance)) / 2
    let total := ib + il + ilf + isc + ih
    if total > 0 then ⟨ib / total, il / total, ilf / total, isc / total, ih / total⟩
    else default_weights

/-- Python lexicographic comparison of the `(month, day)` tuples used by
`_calculate_age`. -/
def pairLt (a b : ℤ × ℤ) : Bool :=
  decide (a.1 < b.1) || (decide (a.1 = b.1) && decide (a.2 < b.2))

/-- Embedding of `CompatibilityCalculator._calculate_age` at a fixed value of
`timezone.now().date()`. -/
def calculate_age (today : Date) (dob : Date) : ℤ :=
  today.year - dob.year - (if pairLt (today.month, today.day) (dob.month, dob.day) then 1 else 0)

/-- Embedding of `CompatibilityCalculator._is_deal_breaker_violated`. -/
def is_deal_breaker_violated (deal_breaker : String) (profile : UserProfile) : Bool :=
  let d := strLower deal_breaker
  (strContains d ("smoking") && profile.smoker == ("yes")) ||
  (strContains d ("pets") && profile.pets == ("yes")) ||
  (strContains d ("partying") && pyTruthyInt profile.social_level &&
    decide (profile.social_level ≥ 8)) ||
  (strContains d ("messy") && pyTruthyInt profile.cleanliness_level &&
    decide (profile.cleanliness_level ≤ 3))

/-- The deal-breaker tag loop of `_calculate_deal_breaker_penalty`: 50 points
accumulated per violated tag. -/
def deal_breaker_tag_penalty (tags : List String) (other : UserProfile) : ℚ :=
  tags.foldl (fun acc t => if is_deal_breaker_violated t other then acc + 50 else acc) 0

/-- Tag penalty contributed by one user's criteria against the other user's
profile (`if criteria and criteria.deal_breakers: ...`). -/
def db_list (c : Option MatchingCriteria) (other : UserProfile) : ℚ :=
  match c with
  | none => 0
  | some cr => deal_breaker_tag_penalty cr.deal_breakers other

/-- The strict-age-preference addition of `_calculate_deal_breaker_penalty`. -/
def age_penalty (c : Option MatchingCriteria) (self other : UserProfile) (today : Date) : ℚ :=
  match c with
  | none => 0
  | some cr =>
    if cr.strict_age_preference && pyTruthyOptInt self.preferred_age_min &&
       pyTruthyOptInt self.preferred_age_max then
      match other.date_of_birth with
      | none => 0
      | some dob =>
        let age := calculate_age today dob
        if age ≠ 0 ∧ ¬(self.preferred_age_min.getD 0 ≤ age ∧ age ≤ self.preferred_age_max.getD 0)
        then 30 else 0
    else 0

/-- The strict-gender-preference addition of `_calculate_deal_breaker_penalty`. -/
def gender_penalty (c : Option MatchingCriteria) (self other : UserProfile) : ℚ :=
  match c with
  | none => 0
  | some cr =>
    if cr.strict_gender_preference && pyTruthyStr self.preferred_gender then
      if self.preferred_gender ≠ ("any") ∧ self.preferred_gender ≠ other.gender then 40 else 0
    else 0

/-- Embedding of `CompatibilityCalculator._calculate_deal_breaker_penalty`. -/
def calculate_deal_breaker_penalty (p1 p2 : UserProfile)
    (c1 c2 : Option MatchingCriteria) (today : Date) : ℚ :=
  if c1.isNone ∧ c2.isNone then 0
  else
    min 100 (db_list c1 p2 + db_list c2 p1 +
      age_penalty c1 p1 p2 today + age_penalty c2 p2 p1 today +
      gender_penalty c1 p1 p2 + gender_penalty c2 p2 p1)

/-- The dictionary returned by `CompatibilityCalculator.calculate_compatibility`.
Keys absent from the Python dict (the score keys of the error result) are
`none`. -/
structure CompatResult where
  overall_score : ℚ
  budget_score : Option ℚ
  location_score : Option ℚ
  lifestyle_score : Option ℚ
  schedule_score : Option ℚ
  habits_score : Option ℚ
  deal_breaker_penalty : Option ℚ
  error : Option String
deriving DecidableEq

/-- The error dict `{'overall_score': 0, 'error': 'Missing profile data'}`. -/
def missing_profile_result : CompatResult :=
  ⟨0, none, none, none, none, none, none, some ("Missing profile data")⟩

/-- The profile-level body of `calculate_compatibility`: the code that runs
after both profile lookups succeed. -/
def calculate_compatibility_profiles (profile1 profile2 : UserProfile)
    (criteria1 criteria2 : Option MatchingCriteria) (today : Date) : CompatResult :=
    let budget_score := calculate_budget_compatibility profile1 profile2
    let location_score := calculate_location_compatibility profile1 profile2
    let lifestyle_score := calculate_lifestyle_compatibility profile1 profile2
    let schedule_score := calculate_schedule_compatibility profile1 profile2
    let habits_score := calculate_habits_compatibility profile1 profile2
    let weights := get_personalized_weights criteria1 criteria2
    let weighted := budget_score * weights.budget + location_score * weights.location +
      lifestyle_score * weights.lifestyle + schedule_score * weights.schedule +
      habits_score * weights.habits
    let penalty := calculate_deal_breaker_penalty profile1 profile2 criteria1 criteria2 today
    let overall := max 0 (weighted - penalty)
    { overall_score := min 100 (max 0 overall),
      budget_score := some budget_score,
      location_score := some location_score,
      lifestyle_score := some lifestyle_score,
      schedule_score := some schedule_score,
      habits_score := some habits_score,
      deal_breaker_penalty := some penalty,
      error := none }

/-- Embedding of `CompatibilityCalculator.calculate_compatibility`: look up
both profile rows (returning the error dict when either is missing) and run
the profile-level body. -/
def calculate_compatibility (user1 user2 : User) (today : Date) : CompatResult :=
  match user1.profile, user2.profile with
  | some profile1, some profile2 =>
    calculate_compatibility_profiles profile1 profile2
      user1.matching_criteria user2.matching_criteria today
  | _, _ => missing_profile_result

/-- One row of the `CompatibilityScore` table, restricted to the columns the
engine reads back. -/
structure StoredScore where
  user1 : ℕ
  user2 : ℕ
  overall_score : ℚ
  budget_score : ℚ
  location_score : ℚ
  lifestyle_score : ℚ
  schedule_score : ℚ
  habits_score : ℚ
deriving DecidableEq

/-- The `CompatibilityScore` table: rows keyed by the `(user1_id, user2_id)`
pair used by `update_or_create`. -/
abbrev Store := List ((ℕ × ℕ) × StoredScore)

/-- `update_or_create(user1=.., user2=.., defaults=..)`: replace the row with
the given key if one exists, append a new row otherwise. -/
def upsert : Store → (ℕ × ℕ) → StoredScore → Store
  | [], k, r => [(k, r)]
  | e :: es, k, r => if e.1 = k then (k, r) :: es else e :: upsert es k r

/-- The keys of the stored rows. -/
def storeKeys (st : Store) : List (ℕ × ℕ) := st.map Prod.fst

/-- Well-formedness of the score table: the `unique_together` constraint on
`(user1, user2)` plus canonical ascending ordering inside each key. -/
def wfStore (st : Store) : Prop :=
  (storeKeys st).Nodup ∧ ∀ k ∈ storeKeys st, k.1 < k.2

/-- Number of rows whose key matches the unordered pair `{a, b}`. -/
def pairRowCount (st : Store) (a b : ℕ) : ℕ :=
  (storeKeys st).countP (fun k => decide (k = (a, b) ∨ k = (b, a)))

/-- Embedding of `MatchingService.calculate_user_compatibility`: canonicalize
the pair by ascending id, run the calculator, read the score keys out of the
result dict — the first absent key raises `KeyError`, exactly as the Python
`defaults={...: result['budget_score'], ...}` construction does — and upsert
the row. -/
def calculate_user_compatibility (u1 u2 : User) (st : Store) (today : Date) :
    Except String (StoredScore × Store) :=
  let a := if u1.id > u2.id then u2 else u1
  let b := if u1.id > u2.id then u1 else u2
  let result := calculate_compatibility a b today
  match result.budget_score, result.location_score, result.lifestyle_score,
        result.schedule_score, result.habits_score with
  | some bs, some ls, some lf, some sc, some hb =>
    let row : StoredScore :=
      { user1 := a.id, user2 := b.id, overall_score := result.overall_score,
        budget_score := bs, location_score := ls, lifestyle_score := lf,
        schedule_score := sc, habits_score := hb }
    Except.ok (row, upsert st (a.id, b.id) row)
  | none, _, _, _, _ => Except.error ("KeyError: budget_score")
  | some _, none, _, _, _ => Except.error ("KeyError: location_score")
  | some _, some _, none, _, _ => Except.error ("KeyError: lifestyle_score")
  | some _, some _, some _, none, _ => Except.error ("KeyError: schedule_score")
  | some _, some _, some _, some _, none => Except.error ("KeyError: habits_score")

/-- Embedding of `CompatibilityScore.compatibility_level`. -/
def compatibility_level (s : ℚ) : String :=
  if s ≥ 90 then ("Excellent")
  else if s ≥ 80 then ("Very Good")
  else if s ≥ 70 then ("Good")
  else if s ≥ 60 then ("Fair")
  else if s ≥ 50 then ("Moderate")
  else ("Low")

/-- Round-half-to-even of a rational to an integer, the behaviour of the
Python format `f"{x:.0f}"` used in the fallback reason text. -/
def pyRound0 (q : ℚ) : ℤ :=
  let fl := q.num.fdiv (q.den : ℤ)
  let fr := q - (fl : ℚ)
  if fr < 1/2 then fl
  else if fr > 1/2 then fl + 1
  else if fl % 2 = 0 then fl else fl + 1

/-- The canned per-dimension sentences (`component_reasons.get(component, ..)`). -/
def component_reason (c : String) : String :=
  if c = ("budget") then ("You have very compatible budget ranges")
  else if c = ("location") then ("You both prefer similar locations")
  else if c = ("lifestyle") then ("Your lifestyles are highly compatible")
  else if c = ("schedule") then ("Your schedules align well")
  else if c = ("habits") then ("You have similar cleanliness and living habits")
  else ("High ") ++ c ++ (" compatibility")

/-- Stable insertion into a descending-sorted list: the new element goes
before the first strictly smaller key, after equal keys already present. -/
def insertByDesc {α : Type} (f : α → ℚ) (x : α) : List α → List α
  | [] => [x]
  | y :: ys => if f x ≥ f y then x :: y :: ys else y :: insertByDesc f x ys

/-- Stable descending sort by a rational key; agrees with Python
`sorted(xs, key=f, reverse=True)`, which is also stable. -/
def sortByDesc {α : Type} (f : α → ℚ) : List α → List α
  | [] => []
  | x :: xs => insertByDesc f x (sortByDesc f xs)

/-- The `component_scores.items()` list of `_generate_recommendation_reason`,
in dict insertion order. -/
def component_items (s : StoredScore) : List (String × ℚ) :=
  [(("budget"), s.budget_score), (("location"), s.location_score),
   (("lifestyle"), s.lifestyle_score), (("schedule"), s.schedule_score),
   (("habits"), s.habits_score)]

/-- The reason-accumulating loop over the top components. -/
def reason_loop : List (String × ℚ) → List String
  | [] => []
  | (c, sc) :: rest => if sc ≥ 80 then component_reason c :: reason_loop rest else reason_loop rest

/-- The overall-tier intro sentence of `_generate_recommendation_reason`. -/
def reason_intro (overall : ℚ) : String :=
  if overall ≥ 90 then ("This is an excellent match! ")
  else if overall ≥ 80 then ("This looks like a great potential roommate. ")
  else if overall ≥ 70 then ("You have good compatibility. ")
  else ("There\x27s moderate compatibility here. ")

/-- Embedding of `MatchingService._generate_recommendation_reason`. -/
def generate_recommendation_reason (s : StoredScore) : String :=
  let sorted_components := sortByDesc Prod.snd (component_items s)
  let reasons := reason_loop (sorted_components.take 3)
  let intro := reason_intro s.overall_score
  if reasons ≠ [] then intro ++ String.intercalate (" ") (reasons.take 2) ++ (".")
  else intro ++ ("Overall compatibility score: ") ++ toString (pyRound0 s.overall_score) ++ ("%.")

/-- Embedding of `MatchingService._generate_highlighted_matches`. -/
def generate_highlighted_matches (s : StoredScore) : List String :=
  (if s.budget_score ≥ 80 then [("budget_compatible")] else []) ++
  (if s.location_score ≥ 80 then [("location_match")] else []) ++
  (if s.lifestyle_score ≥ 80 then [("lifestyle_compatible")] else []) ++
  (if s.schedule_score ≥ 80 then [("schedule_aligned")] else []) ++
  (if s.habits_score ≥ 80 then [("habits_compatible")] else []) ++
  (if s.overall_score ≥ 90 then [("excellent_match")]
   else if s.overall_score ≥ 80 then [("strong_match")] else [])

/-- A generated `UserRecommendation` as returned to the caller. -/
structure Reco where
  target_user : ℕ
  recommended_user : ℕ
  overall_score : ℚ
  reason : String
  highlighted_matches : List String
deriving DecidableEq

/-- Building one recommendation from a stored score: resolve which side of
the canonical pair is not the target, generate reason and highlights. -/
def make_recommendation (target : User) (s : StoredScore) : Reco :=
  { target_user := target.id,
    recommended_user := if s.user1 = target.id then s.user2 else s.user1,
    overall_score := s.overall_score,
    reason := generate_recommendation_reason s,
    highlighted_matches := generate_highlighted_matches s }

/-- The per-candidate scoring loop of `generate_recommendations`: a failure
for one candidate is skipped and the batch continues. -/
def score_candidates (target : User) (today : Date) : List User → Store → (List StoredScore × Store)
  | [], st => ([], st)
  | c :: cs, st =>
    match calculate_user_compatibility target c st today with
    | Except.ok (row, st') =>
      let rest := score_candidates target today cs st'
      (row :: rest.1, rest.2)
    | Except.error _ => score_candidates target today cs st

/-- Embedding of `MatchingService.generate_recommendations`: score every
candidate, sort descending by overall score, take the top `limit`, and build
one recommendation per retained score. -/
def generate_recommendations (target : User) (cands : List User) (st : Store)
    (today : Date) (limit : ℕ) : List Reco × Store :=
  let scored := score_candidates target today cands st
  let top_matches := (sortByDesc StoredScore.overall_score scored.1).take limit
  (top_matches.map (make_recommendation target), scored.2)

/-- Status-tracking state of a `UserRecommendation` row. -/
structure RecommendationRow where
  is_viewed : Bool
  viewed_at : Option ℕ
  is_contacted : Bool
  contacted_at : Option ℕ
deriving DecidableEq

/-- Embedding of `UserRecommendation.mark_viewed`. -/
def mark_viewed (now : ℕ) (r : RecommendationRow) : RecommendationRow :=
  if r.is_viewed then r else { r with is_viewed := true, viewed_at := some now }

/-- Embedding of `UserRecommendation.mark_contacted`. -/
def mark_contacted (now : ℕ) (r : RecommendationRow) : RecommendationRow :=
  if r.is_contacted then r else { r with is_contacted := true, contacted_at := some now }

/-- The column names of the `CompatibilityScore` model, from
`roommate_matching/models.py`. -/
def compatibilityScoreFields : List String :=
  [("id"), ("user1"), ("user2"), ("overall_score"), ("lifestyle_score"),
   ("budget_score"), ("location_score"), ("schedule_score"),
   ("preferences_score"), ("habits_score"), ("score_breakdown"),
   ("calculated_at"), ("is_active")]

/-- The attribute names `api_calculate_compatibility` reads off the
`CompatibilityScore` instance to build its JSON response, from
`roommate_matching/views.py`. -/
def apiCompatibilityResponseFields : List String :=
  [("overall_score"), ("compatibility_level"), ("lifestyle_score"),
   ("preferences_score"), ("personality_score"), ("budget_score"),
   ("location_score")]

/-- Modelled from the spec wording of the budget dimension: return 50 when
either user lacks BOTH budget bounds, otherwise score the interval overlap
`max(0, min(maxA,maxB) - max(minA,minB))` as `min(100, 100*overlap/avg)`. -/
def budget_score_claimed (p1 p2 : UserProfile) : ℚ :=
  if (p1.min_budget = none ∧ p1.max_budget = none) ∨
     (p2.min_budget = none ∧ p2.max_budget = none) then 50
  else
    let mn1 := p1.min_budget.getD 0
    let mx1 := p1.max_budget.getD 0
    let mn2 := p2.min_budget.getD 0
    let mx2 := p2.max_budget.getD 0
    let overlap := max 0 (min mx1 mx2 - max mn1 mn2)
    if overlap ≤ 0 then 0
    else min 100 (100 * overlap / (((mx1 - mn1) + (mx2 - mn2)) / 2))

/-- The amended budget claim: 50 whenever ANY of the four budget bounds is
missing or zero (Python truthiness of the `all(...)` guard); otherwise the
overlap formula of the claim. -/
def budget_score_amended (p1 p2 : UserProfile) : ℚ :=
  if p1.min_budget = none ∨ p1.min_budget = some 0 ∨
     p1.max_budget = none ∨ p1.max_budget = some 0 ∨
     p2.min_budget = none ∨ p2.min_budget = some 0 ∨
     p2.max_budget = none ∨ p2.max_budget = some 0 then 50
  else
    let mn1 := p1.min_budget.getD 0
    let mx1 := p1.max_budget.getD 0
    let mn2 := p2.min_budget.getD 0
    let mx2 := p2.max_budget.getD 0
    let overlap := max 0 (min mx1 mx2 - max mn1 mn2)
    if overlap ≤ 0 then 0
    else min 100 (100 * overlap / (((mx1 - mn1) + (mx2 - mn2)) / 2))

/-- Modelled from the claim wording for the recommendation reason: one canned
sentence is appended for EACH of the three top-scoring dimensions that scores
at least 80 (no cap at two sentences). -/
def reason_claimed (s : StoredScore) : String :=
  let sorted_components := sortByDesc Prod.snd (component_items s)
  let reasons := ((sorted_components.take 3).filter (fun x => decide (80 ≤ x.2))).map
    (fun x => component_reason x.1)
  let intro := reason_intro s.overall_score
  if reasons ≠ [] then intro ++ String.intercalate (" ") reasons ++ (".")
  else intro ++ ("Overall compatibility score: ") ++ toString (pyRound0 s.overall_score) ++ ("%.")

/-- The amended reason claim: as `reason_claimed`, but only the first two
qualifying sentences are included in the final string. -/
def reason_amended (s : StoredScore) : String :=
  let sorted_components := sortByDesc Prod.snd (component_items s)
  let reasons := ((sorted_components.take 3).filter (fun x => decide (80 ≤ x.2))).map
    (fun x => component_reason x.1)
  let intro := reason_intro s.overall_score
  if reasons ≠ [] then intro ++ String.intercalate (" ") (reasons.take 2) ++ (".")
  else intro ++ ("Overall compatibility score: ") ++ toString (pyRound0 s.overall_score) ++ ("%.")

/-- The four deal-breaker violation rules exactly as the claim words them
(case-insensitive substring match on the tag, no truthiness guards). -/
def claim_tag_violated (tag : String) (p : UserProfile) : Bool :=
  (strContains (strLower tag) ("smoking") && p.smoker == ("yes")) ||
  (strContains (strLower tag) ("pets") && p.pets == ("yes")) ||
  (strContains (strLower tag) ("partying") && decide (p.social_level ≥ 8)) ||
  (strContains (strLower tag) ("messy") && decide (p.cleanliness_level ≤ 3))

/-- Number of deal-breaker tags of one user violated by the other profile,
per the claim's rules. -/
def claim_violation_count (c : Option MatchingCriteria) (other : UserProfile) : ℕ :=
  match c with
  | none => 0
  | some cr => cr.deal_breakers.countP (fun t => claim_tag_violated t other)

/-- A fixed evaluation date for concrete witnesses. -/
def sampleDate : Date := ⟨2026, 10, 12⟩

/-- A concrete complete profile (budget [200, 400]). -/
def sampleProfileA : UserProfile :=
  { date_of_birth := none, gender := ("male"), preferred_locations := [("newtown")],
    min_budget := some 200, max_budget := some 400,
    cleanliness_level := 5, noise_tolerance := 5, social_level := 5,
    smoker := ("no"), drinking := ("social"), pets := ("no"),
    schedule_type := ("regular"), works_from_home := false,
    preferred_age_min := none, preferred_age_max := none, preferred_gender := ("any") }

/-- A concrete complete profile (budget [300, 500]). -/
def sampleProfileB : UserProfile :=
  { date_of_birth := none, gender := ("female"), preferred_locations := [("newtown"), ("redfern")],
    min_budget := some 300, max_budget := some 500,
    cleanliness_level := 6, noise_tolerance := 4, social_level := 9,
    smoker := ("yes"), drinking := ("regular"), pets := ("yes"),
    schedule_type := ("night_owl"), works_from_home := true,
    preferred_age_min := none, preferred_age_max := none, preferred_gender := ("any") }

/-- A profile whose `min_budget` is the (falsy) Decimal zero. -/
def zeroBudgetProfile : UserProfile :=
  { date_of_birth := none, gender := ("male"), preferred_locations := [],
    min_budget := some 0, max_budget := some 400,
    cleanliness_level := 5, noise_tolerance := 5, social_level := 5,
    smoker := ("no"), drinking := ("social"), pets := ("no"),
    schedule_type := ("regular"), works_from_home := false,
    preferred_age_min := none, preferred_age_max := none, preferred_gender := ("any") }

/-- Concrete matching criteria with one deal-breaker tag. -/
def sampleCriteria : MatchingCriteria :=
  { budget_importance := 5, location_importance := 4, lifestyle_importance := 4,
    schedule_importance := 3, habits_importance := 4,
    deal_breakers := [("no smoking")],
    strict_age_preference := false, strict_gender_preference := false }

/-- Concrete user 1, with a profile. -/
def userA : User := ⟨1, some sampleProfileA, none⟩

/-- Concrete user 2, with a profile. -/
def userB : User := ⟨2, some sampleProfileB, some sampleCriteria⟩

/-- Concrete user 3, whose profile row does not exist. -/
def userNoProfile : User := ⟨3, none, none⟩

/-- A stored score with every dimension at 100. -/
def perfectScore : StoredScore := ⟨1, 2, 100, 100, 100, 100, 100, 100⟩

/-- A fresh, untouched recommendation row. -/
def freshRow : RecommendationRow := ⟨false, none, false, none⟩

/-- C1: for every pair of users whose profile rows exist the overall
compatibility score lies in [0, 100]: the deal-breaker penalty is subtracted
from the weighted sum and the result is clamped into the range. -/
theorem overall_score_bounded (u1 u2 : User) (today : Date)
    (h1 : u1.profile.isSome) (h2 : u2.profile.isSome) :
    0 ≤ (calculate_compatibility u1 u2 today).overall_score ∧
    (calculate_compatibility u1 u2 today).overall_score ≤ 100 := by
  rcases hp1 : u1.profile with _ | p1
  · exact absurd h1 (by simp [hp1])
  rcases hp2 : u2.profile with _ | p2
  · exact absurd h2 (by simp [hp2])
  simp only [calculate_compatibility, calculate_compatibility_profiles, hp1, hp2]
  exact ⟨le_min (by norm_num) (le_max_left _ _), min_le_left _ _⟩

/-- Witness for C1 at two concrete users with profiles. -/
theorem overall_score_bounded_witness :
    0 ≤ (calculate_compatibility userA userB sampleDate).overall_score ∧
    (calculate_compatibility userA userB sampleDate).overall_score ≤ 100 :=
  overall_score_bounded userA userB sampleDate (by rfl) (by rfl)

/-- C10: `mark_viewed` and `mark_contacted` are idempotent: the first call
sets the flag and records the timestamp, every later call leaves the flag
and the originally recorded timestamp unchanged. -/
theorem mark_operations_idempotent (r : RecommendationRow) (n1 n2 : ℕ) :
    (mark_viewed n1 r).is_viewed = true ∧
    (r.is_viewed = false → (mark_viewed n1 r).viewed_at = some n1) ∧
    mark_viewed n2 (mark_viewed n1 r) = mark_viewed n1 r ∧
    (mark_contacted n1 r).is_contacted = true ∧
    (r.is_contacted = false → (mark_contacted n1 r).contacted_at = some n1) ∧
    mark_contacted n2 (mark_contacted n1 r) = mark_contacted n1 r := by
  unfold mark_viewed mark_contacted
  by_cases hv : r.is_viewed = true <;> by_cases hc : r.is_contacted = true <;>
    simp_all

/-- Witness for C10 on a fresh recommendation row. -/
theorem mark_operations_idempotent_witness :
    (mark_viewed 5 freshRow).viewed_at = some 5 ∧
    mark_viewed 7 (mark_viewed 5 freshRow) = mark_viewed 5 freshRow ∧
    (mark_contacted 9 freshRow).contacted_at = some 9 :=
  ⟨(mark_operations_idempotent freshRow 5 7).2.1 rfl,
   (mark_operations_idempotent freshRow 5 7).2.2.1,
   (mark_operations_idempotent freshRow 9 7).2.2.2.2.1 rfl⟩

/-- C9 (divergence evidence): the single-pair API response reads a
`personality_score` attribute that the `CompatibilityScore` model does not
define (an `AttributeError` at runtime), and the response as written contains
neither the schedule nor the habits dimension score, contradicting the claim
that all five dimension scores are returned. -/
theorem api_response_fields_mismatch :
    ("personality_score") ∈ apiCompatibilityResponseFields ∧
    ("personality_score") ∉ compatibilityScoreFields ∧
    ("schedule_score") ∉ apiCompatibilityResponseFields ∧
    ("habits_score") ∉ apiCompatibilityResponseFields := by decide

/-- C7 (divergence evidence): with a missing profile row the calculator
does return the error dict with overall score 0 and the explicit missing
profile marker, but the single-pair service path then fails with a KeyError
while reading `result['budget_score']`, so the error result is never
propagated to the caller. -/
theorem missing_profile_keyerror :
    calculate_compatibility userA userNoProfile sampleDate = missing_profile_result ∧
    missing_profile_result.overall_score = 0 ∧
    missing_profile_result.error = some ("Missing profile data") ∧
    calculate_user_compatibility userA userNoProfile [] sampleDate =
      Except.error (("KeyError: budget_score")) :=
  ⟨rfl, rfl, rfl, rfl⟩

/-- Python truthiness of an optional Decimal, in propositional form. -/
lemma pyTruthyQ_true_iff (o : Option ℚ) :
    pyTruthyQ o = true ↔ ∃ v, o = some v ∧ v ≠ 0 := by
  cases o <;> simp [pyTruthyQ]

/-- The budget guard of the source is false exactly when one of the four
bounds is missing or zero. -/
lemma budget_guard_false_iff (p1 p2 : UserProfile) :
    (pyTruthyQ p1.min_budget && pyTruthyQ p1.max_budget &&
     pyTruthyQ p2.min_budget && pyTruthyQ p2.max_budget) = false ↔
    (p1.min_budget = none ∨ p1.min_budget = some 0 ∨
     p1.max_budget = none ∨ p1.max_budget = some 0 ∨
     p2.min_budget = none ∨ p2.min_budget = some 0 ∨
     p2.max_budget = none ∨ p2.max_budget = some 0) := by
  rcases p1 with ⟨_, _, _, m1, x1, _, _, _, _, _, _, _, _, _, _, _⟩
  rcases p2 with ⟨_, _, _, m2, x2, _, _, _, _, _, _, _, _, _, _, _⟩
  cases m1 <;> cases x1 <;> cases m2 <;> cases x2 <;>
    (simp [pyTruthyQ]; try tauto)

/-- C6 counterexample: with both users having budget bounds [0, 400], the
source returns the neutral 50 (the Decimal 0 is falsy inside `all(...)`),
while the claim's formula — neither user lacks both bounds, full overlap —
yields 100. -/
theorem budget_claim_counterexample :
    calculate_budget_compatibility zeroBudgetProfile zeroBudgetProfile ≠
      budget_score_claimed zeroBudgetProfile zeroBudgetProfile := by
  have h1 : calculate_budget_compatibility zeroBudgetProfile zeroBudgetProfile = 50 := by
    norm_num [calculate_budget_compatibility, zeroBudgetProfile, pyTruthyQ]
  have h2 : budget_score_claimed zeroBudgetProfile zeroBudgetProfile = 100 := by
    simp only [budget_score_claimed, zeroBudgetProfile]
    rw [if_neg (by simp)]
    simp only [Option.getD_some, min_self, max_self, sub_zero]
    rw [max_eq_right (by norm_num : (0 : ℚ) ≤ 400)]
    rw [if_neg (by norm_num : ¬ (400 : ℚ) ≤ 0)]
    norm_num [min_self]
  rw [h1, h2]; norm_num

/-- C6 amended: the budget score is 50 exactly when any of the four budget
bounds is missing or zero; otherwise the claim's overlap formula holds, and
in particular budgets [200,400] versus [300,500] score 50. -/
theorem budget_score_correct :
    (∀ p1 p2 : UserProfile,
      calculate_budget_compatibility p1 p2 = budget_score_amended p1 p2) ∧
    calculate_budget_compatibility sampleProfileA sampleProfileB = 50 := by
  constructor
  · intro p1 p2
    unfold calculate_budget_compatibility budget_score_amended
    by_cases h : (pyTruthyQ p1.min_budget && pyTruthyQ p1.max_budget &&
        pyTruthyQ p2.min_budget && pyTruthyQ p2.max_budget) = true
    · have hcond : ¬(p1.min_budget = none ∨ p1.min_budget = some 0 ∨
          p1.max_budget = none ∨ p1.max_budget = some 0 ∨
          p2.min_budget = none ∨ p2.min_budget = some 0 ∨
          p2.max_budget = none ∨ p2.max_budget = some 0) := by
        rw [← budget_guard_false_iff]
        simp [h]
      rw [if_pos h, if_neg hcond]
      simp only []
      set mn1 := p1.min_budget.getD 0 with hmn1
      set mx1 := p1.max_budget.getD 0 with hmx1
      set mn2 := p2.min_budget.getD 0 with hmn2
      set mx2 := p2.max_budget.getD 0 with hmx2
      by_cases hgt : max mn1 mn2 > min mx1 mx2
      · rw [if_pos hgt]
        have hle : min mx1 mx2 - max mn1 mn2 ≤ 0 := by linarith
        have : max (0 : ℚ) (min mx1 mx2 - max mn1 mn2) = 0 := max_eq_left hle
        rw [this, if_pos (le_refl (0 : ℚ))]
      · rw [if_neg hgt]
        push_neg at hgt
        have hov : max (0 : ℚ) (min mx1 mx2 - max mn1 mn2) = min mx1 mx2 - max mn1 mn2 :=
          max_eq_right (by linarith)
        rw [hov]
        by_cases h0 : min mx1 mx2 - max mn1 mn2 ≤ 0
        · rw [if_pos h0]
          have he : min mx1 mx2 - max mn1 mn2 = 0 := le_antisymm h0 (by linarith)
          by_cases havg : (mx1 - mn1 + (mx2 - mn2)) / 2 > 0
          · rw [if_pos havg, he]
            norm_num
          · rw [if_neg havg]
            norm_num
        · rw [if_neg h0]
          push_neg at h0
          have hr1 : min mx1 mx2 - max mn1 mn2 ≤ mx1 - mn1 := by
            have := min_le_left mx1 mx2
            have := le_max_left mn1 mn2
            linarith
          have hr2 : min mx1 mx2 - max mn1 mn2 ≤ mx2 - mn2 := by
            have := min_le_right mx1 mx2
            have := le_max_right mn1 mn2
            linarith
          have havg : (mx1 - mn1 + (mx2 - mn2)) / 2 > 0 := by linarith
          rw [if_pos havg]
          have : (min mx1 mx2 - max mn1 mn2) / ((mx1 - mn1 + (mx2 - mn2)) / 2) * 100 =
              100 * (min mx1 mx2 - max mn1 mn2) / ((mx1 - mn1 + (mx2 - mn2)) / 2) := by
            ring
          rw [this]
    · rw [if_neg h]
      have hcond : p1.min_budget = none ∨ p1.min_budget = some 0 ∨
          p1.max_budget = none ∨ p1.max_budget = some 0 ∨
          p2.min_budget = none ∨ p2.min_budget = some 0 ∨
          p2.max_budget = none ∨ p2.max_budget = some 0 := by
        rw [← budget_guard_false_iff]
        simp only [Bool.not_eq_true] at h
        exact h
      rw [if_pos hcond]
  · have h1 : max (200 : ℚ) 300 = 300 := max_eq_right (by norm_num)
    have h2 : min (400 : ℚ) 500 = 400 := min_eq_left (by norm_num)
    have h3 : min (100 : ℚ) 50 = 50 := min_eq_right (by norm_num)
    norm_num [calculate_budget_compatibility, sampleProfileA, sampleProfileB,
      pyTruthyQ, h1, h2, h3]

/-- The tag loop accumulates exactly 50 per violated tag. -/
lemma foldl_tag_penalty (p : UserProfile) :
    ∀ (tags : List String) (init : ℚ),
    tags.foldl (fun acc t => if is_deal_breaker_violated t p then acc + 50 else acc) init =
      init + 50 * ((tags.countP (fun t => is_deal_breaker_violated t p) : ℕ) : ℚ) := by
  intro tags
  induction tags with
  | nil => intro init; simp
  | cons t ts ih =>
    intro init
    simp only [List.foldl_cons, List.countP_cons]
    by_cases h : is_deal_breaker_violated t p = true
    · rw [if_pos h, ih]
      simp only [h, if_true]
      push_cast
      ring
    · rw [if_neg h, ih]
      simp [h]

/-- On profiles whose cleanliness level is at least 1 (the data model range),
the source's violation check coincides with the claim's four rules. -/
lemma violated_eq_claim (t : String) (p : UserProfile)
    (hc : 1 ≤ p.cleanliness_level) :
    is_deal_breaker_violated t p = claim_tag_violated t p := by
  unfold is_deal_breaker_violated claim_tag_violated
  simp only []
  have hc0 : p.cleanliness_level ≠ 0 := by omega
  by_cases h8 : (8 : ℤ) ≤ p.social_level
  · have h0 : p.social_level ≠ 0 := by omega
    simp [pyTruthyInt, h0, hc0, h8]
  · simp [pyTruthyInt, hc0, h8]

/-- The per-user tag penalty is 50 times the claim's violation count. -/
lemma db_list_eq_claim (c : Option MatchingCriteria) (p : UserProfile)
    (hc : 1 ≤ p.cleanliness_level) :
    db_list c p = 50 * ((claim_violation_count c p : ℕ) : ℚ) := by
  cases c with
  | none => simp [db_list, claim_violation_count]
  | some cr =>
    simp only [db_list, claim_violation_count, deal_breaker_tag_penalty]
    rw [foldl_tag_penalty p cr.deal_breakers 0]
    rw [List.countP_congr (fun t _ => by rw [violated_eq_claim t p hc])]
    ring

/-- C5: each deal-breaker tag violated by the other user's profile (per the
claim's four substring rules) contributes exactly 50 to the penalty, the
strict-age and strict-gender additions are added on top, and the total
penalty is capped at 100. -/
theorem deal_breaker_penalty_spec (p1 p2 : UserProfile)
    (c1 c2 : Option MatchingCriteria) (today : Date)
    (h1 : 1 ≤ p1.cleanliness_level) (h2 : 1 ≤ p2.cleanliness_level) :
    calculate_deal_breaker_penalty p1 p2 c1 c2 today ≤ 100 ∧
    calculate_deal_breaker_penalty p1 p2 c1 c2 today =
      (if c1.isNone ∧ c2.isNone then 0
       else min 100 (50 * ((claim_violation_count c1 p2 : ℕ) : ℚ) +
         50 * ((claim_violation_count c2 p1 : ℕ) : ℚ) +
         age_penalty c1 p1 p2 today + age_penalty c2 p2 p1 today +
         gender_penalty c1 p1 p2 + gender_penalty c2 p2 p1)) := by
  constructor
  · unfold calculate_deal_breaker_penalty
    by_cases h : c1.isNone ∧ c2.isNone
    · rw [if_pos h]; norm_num
    · rw [if_neg h]; exact min_le_left _ _
  · unfold calculate_deal_breaker_penalty
    rw [db_list_eq_claim c1 p2 h2, db_list_eq_claim c2 p1 h1]

/-- Witness for C5 at concrete profiles and criteria. -/
theorem deal_breaker_penalty_spec_witness :
    calculate_deal_breaker_penalty sampleProfileA sampleProfileB
      (some sampleCriteria) none sampleDate ≤ 100 ∧
    calculate_deal_breaker_penalty sampleProfileA sampleProfileB
      (some sampleCriteria) none sampleDate =
      (if (some sampleCriteria).isNone ∧ (none : Option MatchingCriteria).isNone then 0
       else min 100 (50 * ((claim_violation_count (some sampleCriteria) sampleProfileB : ℕ) : ℚ) +
         50 * ((claim_violation_count none sampleProfileA : ℕ) : ℚ) +
         age_penalty (some sampleCriteria) sampleProfileA sampleProfileB sampleDate +
         age_penalty none sampleProfileB sampleProfileA sampleDate +
         gender_penalty (some sampleCriteria) sampleProfileA sampleProfileB +
         gender_penalty none sampleProfileB sampleProfileA)) :=
  deal_breaker_penalty_spec sampleProfileA sampleProfileB
    (some sampleCriteria) none sampleDate (by decide) (by decide)

/-- The reason loop is the filter-then-map the claim describes. -/
lemma reason_loop_eq_filter :
    ∀ l : List (String × ℚ),
    reason_loop l = (l.filter (fun x => decide (80 ≤ x.2))).map (fun x => component_reason x.1) := by
  intro l
  induction l with
  | nil => rfl
  | cons x xs ih =>
    rcases x with ⟨c, sc⟩
    by_cases h : (80 : ℚ) ≤ sc
    · simp [reason_loop, List.filter_cons, h, ih]
    · simp [reason_loop, List.filter_cons, h, ih]

/-- C8 counterexample: with every dimension at 100 the claim's reason
string carries three canned sentences, but the source joins only the first
two (`reasons[:2]`), so the produced reason differs from the claimed one. -/
theorem recommendation_reason_counterexample :
    generate_recommendation_reason perfectScore ≠ reason_claimed perfectScore := by
  decide

/-- C8 amended: the reason is built from the three highest-scoring
dimensions, appending the canned sentence for each scoring at least 80 but
keeping only the first two such sentences, prefixed by the tier intro, with
the numeric fallback when no dimension qualifies. -/
theorem recommendation_reason_amended (s : StoredScore) :
    generate_recommendation_reason s = reason_amended s := by
  unfold generate_recommendation_reason reason_amended
  simp only []
  rw [reason_loop_eq_filter]

/-- Membership in a descending insertion. -/
lemma mem_insertByDesc {α : Type} (f : α → ℚ) (x : α) (l : List α) (z : α) :
    z ∈ insertByDesc f x l ↔ z = x ∨ z ∈ l := by
  induction l with
  | nil => simp [insertByDesc]
  | cons y ys ih =>
    by_cases h : f x ≥ f y
    · simp [insertByDesc, h]
    · simp only [insertByDesc, if_neg h, List.mem_cons, ih]
      tauto

/-- Descending insertion preserves descending pairwise order. -/
lemma pairwise_insertByDesc {α : Type} (f : α → ℚ) (x : α) (l : List α)
    (hl : l.Pairwise (fun a b => f b ≤ f a)) :
    (insertByDesc f x l).Pairwise (fun a b => f b ≤ f a) := by
  induction l with
  | nil => simp [insertByDesc]
  | cons y ys ih =>
    rcases List.pairwise_cons.mp hl with ⟨hy, hys⟩
    by_cases h : f x ≥ f y
    · simp only [insertByDesc, if_pos h]
      refine List.Pairwise.cons ?_ hl
      intro z hz
      rcases List.mem_cons.mp hz with rfl | hz'
      · exact h
      · exact le_trans (hy z hz') h
    · simp only [insertByDesc, if_neg h]
      refine List.Pairwise.cons ?_ (ih hys)
      intro z hz
      rcases (mem_insertByDesc f x ys z).mp hz with rfl | hz'
      · exact le_of_lt (lt_of_not_ge h)
      · exact hy z hz'

/-- The insertion sort produces a descending-sorted list. -/
lemma pairwise_sortByDesc {α : Type} (f : α → ℚ) (l : List α) :
    (sortByDesc f l).Pairwise (fun a b => f b ≤ f a) := by
  induction l with
  | nil => simp [sortByDesc]
  | cons x xs ih => exact pairwise_insertByDesc f x _ ih

/-- If scoring fails for every candidate, the scoring loop collects nothing
and leaves the store untouched. -/
lemma score_candidates_all_fail (target : User) (today : Date) :
    ∀ (cands : List User) (st : Store),
    (∀ c ∈ cands, ∀ st' : Store, ∃ e,
      calculate_user_compatibility target c st' today = Except.error e) →
    score_candidates target today cands st = ([], st) := by
  intro cands
  induction cands with
  | nil => intro st _; rfl
  | cons c cs ih =>
    intro st h
    obtain ⟨e, he⟩ := h c (List.mem_cons_self c cs) st
    simp only [score_candidates, he]
    exact ih st (fun c' hc' => h c' (List.mem_cons_of_mem c hc'))

/-- C4: `generate_recommendations` returns at most `limit` recommendations,
ordered non-increasingly by overall compatibility score; an empty candidate
pool, or every candidate failing to score, yields an empty list. -/
theorem generate_recommendations_spec (target : User) (cands : List User)
    (st : Store) (today : Date) (limit : ℕ) :
    (generate_recommendations target cands st today limit).1.length ≤ limit ∧
    (generate_recommendations target cands st today limit).1.Pairwise
      (fun a b => b.overall_score ≤ a.overall_score) ∧
    (cands = [] → (generate_recommendations target cands st today limit).1 = []) ∧
    ((∀ c ∈ cands, ∀ st' : Store, ∃ e,
        calculate_user_compatibility target c st' today = Except.error e) →
      (generate_recommendations target cands st today limit).1 = []) := by
  refine ⟨?_, ?_, ?_, ?_⟩
  · simp [generate_recommendations]
  · simp only [generate_recommendations]
    rw [List.pairwise_map]
    exact List.Pairwise.sublist (List.take_sublist _ _)
      (pairwise_sortByDesc StoredScore.overall_score _)
  · intro h
    subst h
    simp [generate_recommendations, score_candidates, sortByDesc]
  · intro h
    simp only [generate_recommendations]
    rw [score_candidates_all_fail target today cands st h]
    simp [sortByDesc]

/-- Witness for C4: empty pool and an all-failing pool both yield the empty
list, and the length bound holds there. -/
theorem generate_recommendations_spec_witness :
    (generate_recommendations userA ([] : List User) [] sampleDate 5).1 = [] ∧
    (generate_recommendations userA [userNoProfile] [] sampleDate 5).1 = [] ∧
    (generate_recommendations userA [userNoProfile] [] sampleDate 5).1.length ≤ 5 :=
  ⟨(generate_recommendations_spec userA [] [] sampleDate 5).2.2.1 rfl,
   (generate_recommendations_spec userA [userNoProfile] [] sampleDate 5).2.2.2
     (by
       intro c hc st'
       simp only [List.mem_singleton] at hc
       subst hc
       exact ⟨("KeyError: budget_score"), rfl⟩),
   (generate_recommendations_spec userA [userNoProfile] [] sampleDate 5).1⟩

/-- Keys after an upsert: the inserted key plus the old keys. -/
lemma mem_storeKeys_upsert (k q : ℕ × ℕ) (r : StoredScore) :
    ∀ st : Store, (q ∈ storeKeys (upsert st k r) ↔ q = k ∨ q ∈ storeKeys st) := by
  intro st
  induction st with
  | nil => simp [upsert, storeKeys]
  | cons e es ih =>
    by_cases he : e.1 = k
    · simp only [upsert, if_pos he, storeKeys, List.map_cons, List.mem_cons] at *
      rw [he]
      tauto
    · simp only [upsert, if_neg he, storeKeys, List.map_cons, List.mem_cons] at *
      rw [ih]
      tauto

/-- Decomposition of well-formedness of a non-empty store. -/
lemma wfStore_cons (e : (ℕ × ℕ) × StoredScore) (es : Store)
    (hwf : wfStore (e :: es)) :
    e.1 ∉ storeKeys es ∧ wfStore es ∧ e.1.1 < e.1.2 := by
  rcases hwf with ⟨hnd, hbd⟩
  simp only [storeKeys, List.map_cons] at hnd
  have h' := List.nodup_cons.mp hnd
  refine ⟨h'.1, ⟨h'.2, ?_⟩, ?_⟩
  · intro q hq
    exact hbd q (by
      simp only [storeKeys, List.map_cons, List.mem_cons]
      exact Or.inr (by simpa only [storeKeys] using hq))
  · exact hbd e.1 (by simp [storeKeys])

/-- Upserting a canonical key preserves store well-formedness. -/
lemma wf_upsert (k : ℕ × ℕ) (hk : k.1 < k.2) (r : StoredScore) :
    ∀ st : Store, wfStore st → wfStore (upsert st k r) := by
  intro st
  induction st with
  | nil =>
    intro _
    refine ⟨?_, ?_⟩
    · simp only [upsert, storeKeys, List.map_cons, List.map_nil]
      exact List.nodup_singleton k
    · intro q hq
      simp only [upsert, storeKeys, List.map_cons, List.map_nil,
        List.mem_singleton] at hq
      rw [hq]
      exact hk
  | cons e es ih =>
    intro hwf
    obtain ⟨hnin, hwf_es, hebd⟩ := wfStore_cons e es hwf
    by_cases he : e.1 = k
    · refine ⟨?_, ?_⟩
      · simp only [upsert, if_pos he, storeKeys, List.map_cons]
        exact List.nodup_cons.mpr ⟨by rw [← he]; simpa only [storeKeys] using hnin,
          by simpa only [storeKeys] using hwf_es.1⟩
      · intro q hq
        simp only [upsert, if_pos he, storeKeys, List.map_cons, List.mem_cons] at hq
        rcases hq with rfl | hq'
        · exact hk
        · exact hwf_es.2 q (by simpa only [storeKeys] using hq')
    · have ihres := ih hwf_es
      refine ⟨?_, ?_⟩
      · simp only [upsert, if_neg he, storeKeys, List.map_cons]
        refine List.nodup_cons.mpr ⟨?_, by simpa only [storeKeys] using ihres.1⟩
        intro hmem
        rcases (mem_storeKeys_upsert k e.1 r es).mp
            (by simpa only [storeKeys] using hmem) with h1 | h2
        · exact he h1
        · exact hnin h2
      · intro q hq
        simp only [upsert, if_neg he, storeKeys, List.map_cons, List.mem_cons] at hq
        rcases hq with rfl | hq'
        · exact hebd
        · exact ihres.2 q (by simpa only [storeKeys] using hq')

/-- In a list of canonical keys not containing `(c, d)`, no key matches the
unordered pair `{c, d}`. -/
lemma countP_pair_zero (c d : ℕ) (hcd : c < d) (ks : List (ℕ × ℕ))
    (hnotin : (c, d) ∉ ks) (hbd : ∀ q ∈ ks, q.1 < q.2) :
    ks.countP (fun k => decide (k = (c, d) ∨ k = (d, c))) = 0 := by
  rw [List.countP_eq_zero]
  intro q hq
  simp only [decide_eq_true_eq]
  rintro (rfl | rfl)
  · exact hnotin hq
  · have := hbd _ hq
    simp at this
    omega

/-- After upserting the canonical key of a distinct pair into a well-formed
store, exactly one row matches the unordered pair. -/
lemma pairRowCount_upsert (c d : ℕ) (hcd : c < d) (r : StoredScore) :
    ∀ st : Store, wfStore st → pairRowCount (upsert st (c, d) r) c d = 1 := by
  intro st
  induction st with
  | nil =>
    intro _
    simp [upsert, pairRowCount, storeKeys, List.countP_cons]
  | cons e es ih =>
    intro hwf
    obtain ⟨hnin, hwf_es, hebd⟩ := wfStore_cons e es hwf
    by_cases he : e.1 = (c, d)
    · unfold pairRowCount
      simp only [upsert, if_pos he, storeKeys, List.map_cons, List.countP_cons]
      have h0 : (List.map Prod.fst es).countP
          (fun k => decide (k = (c, d) ∨ k = (d, c))) = 0 :=
        countP_pair_zero c d hcd _ (by rw [← he]; simpa only [storeKeys] using hnin)
          (fun q hq => hwf_es.2 q (by simpa only [storeKeys] using hq))
      rw [h0]
      simp
    · have hpe : ¬(e.1 = (c, d) ∨ e.1 = (d, c)) := by
        rintro (h1 | h2)
        · exact he h1
        · rw [h2] at hebd
          simp at hebd
          omega
      unfold pairRowCount
      simp only [upsert, if_neg he, storeKeys, List.map_cons, List.countP_cons]
      have hih := ih hwf_es
      unfold pairRowCount at hih
      simp only [storeKeys] at hih
      rw [hih]
      simp [hpe]

/-- The unordered row count does not depend on the pair's orientation. -/
lemma pairRowCount_comm (st : Store) (a b : ℕ) :
    pairRowCount st a b = pairRowCount st b a := by
  unfold pairRowCount
  exact List.countP_congr (fun k _ => by
    simp only [decide_eq_true_eq]
    exact or_comm)

/-- Inverting an ok-result of the single-pair service on an already ordered
pair: the row carries the ordered ids and the store got the upserted row. -/
lemma calcUC_ok_fields (u v : User) (st : Store) (today : Date)
    (h : ¬ u.id > v.id) (row : StoredScore) (st' : Store)
    (hok : calculate_user_compatibility u v st today = Except.ok (row, st')) :
    row.user1 = u.id ∧ row.user2 = v.id ∧ st' = upsert st (u.id, v.id) row := by
  unfold calculate_user_compatibility at hok
  simp only [if_neg h] at hok
  rcases hb : (calculate_compatibility u v today).budget_score with _ | bs <;>
    rw [hb] at hok
  · simp at hok
  rcases hl : (calculate_compatibility u v today).location_score with _ | ls <;>
    rw [hl] at hok
  · simp at hok
  rcases hlf : (calculate_compatibility u v today).lifestyle_score with _ | lf <;>
    rw [hlf] at hok
  · simp at hok
  rcases hsc : (calculate_compatibility u v today).schedule_score with _ | sc <;>
    rw [hsc] at hok
  · simp at hok
  rcases hhb : (calculate_compatibility u v today).habits_score with _ | hbs <;>
    rw [hhb] at hok
  · simp at hok
  simp only [Except.ok.injEq, Prod.mk.injEq] at hok
  rcases hok with ⟨h1, h2⟩
  rw [← h1, ← h2]
  exact ⟨rfl, rfl, rfl⟩

/-- C3: the single-pair store path canonicalizes the pair by ascending id —
storing for (A,B) and for (B,A) is the same operation — and on success the
stored row is keyed ascending and is the only row for the unordered pair. -/
theorem canonical_pair_storage (u1 u2 : User) (st : Store) (today : Date)
    (hne : u1.id ≠ u2.id) (hwf : wfStore st) :
    calculate_user_compatibility u1 u2 st today =
      calculate_user_compatibility u2 u1 st today ∧
    ∀ row st', calculate_user_compatibility u1 u2 st today = Except.ok (row, st') →
      row.user1 = min u1.id u2.id ∧ row.user2 = max u1.id u2.id ∧
      row.user1 < row.user2 ∧ wfStore st' ∧ pairRowCount st' u1.id u2.id = 1 := by
  rcases lt_or_gt_of_ne hne with hlt | hgt
  · have h1 : ¬ u1.id > u2.id := by omega
    have hsymm : calculate_user_compatibility u1 u2 st today =
        calculate_user_compatibility u2 u1 st today := by
      unfold calculate_user_compatibility
      simp only [if_neg h1, if_pos hlt]
    refine ⟨hsymm, ?_⟩
    intro row st' hok
    obtain ⟨hr1, hr2, hst⟩ := calcUC_ok_fields u1 u2 st today h1 row st' hok
    refine ⟨?_, ?_, ?_, ?_, ?_⟩
    · rw [hr1]; omega
    · rw [hr2]; omega
    · rw [hr1, hr2]; exact hlt
    · rw [hst]
      exact wf_upsert (u1.id, u2.id) hlt row st hwf
    · rw [hst]
      exact pairRowCount_upsert u1.id u2.id hlt row st hwf
  · have h2 : ¬ u2.id > u1.id := by omega
    have hsymm : calculate_user_compatibility u1 u2 st today =
        calculate_user_compatibility u2 u1 st today := by
      unfold calculate_user_compatibility
      simp only [if_pos hgt, if_neg h2]
    refine ⟨hsymm, ?_⟩
    intro row st' hok
    rw [hsymm] at hok
    obtain ⟨hr1, hr2, hst⟩ := calcUC_ok_fields u2 u1 st today h2 row st' hok
    refine ⟨?_, ?_, ?_, ?_, ?_⟩
    · rw [hr1]; omega
    · rw [hr2]; omega
    · rw [hr1, hr2]; exact hgt
    · rw [hst]
      exact wf_upsert (u2.id, u1.id) hgt row st hwf
    · rw [hst, pairRowCount_comm]
      exact pairRowCount_upsert u2.id u1.id hgt row st hwf

/-- Witness for C3: on an empty well-formed store and two concrete distinct
users, storing (A,B) and storing (B,A) are the same operation. -/
theorem canonical_pair_storage_witness :
    calculate_user_compatibility userA userB [] sampleDate =
      calculate_user_compatibility userB userA [] sampleDate :=
  (canonical_pair_storage userA userB [] sampleDate (by decide)
    ⟨List.nodup_nil, by simp [storeKeys]⟩).1

/-- Strict lexicographic order is asymmetric. -/
lemma lexLt_asymm : ∀ x y : List Char, lexLt x y = true → lexLt y x = false := by
  intro x
  induction x with
  | nil =>
    intro y h
    cases y with
    | nil => simp [lexLt] at h
    | cons b bs => simp [lexLt]
  | cons a as ih =>
    intro y h
    cases y with
    | nil => simp [lexLt] at h
    | cons b bs =>
      simp only [lexLt] at h ⊢
      by_cases hab : a < b
      · simp [hab, asymm hab]
      · by_cases hba : b < a
        · simp [hab, hba] at h
        · rw [if_neg hab, if_neg hba] at h
          rw [if_neg hba, if_neg hab]
          exact ih bs h

/-- Two character lists neither of which precedes the other are equal. -/
lemma lexLt_eq_of_not : ∀ x y : List Char,
    lexLt x y = false → lexLt y x = false → x = y := by
  intro x
  induction x with
  | nil =>
    intro y h1 _
    cases y with
    | nil => rfl
    | cons b bs => simp [lexLt] at h1
  | cons a as ih =>
    intro y h1 h2
    cases y with
    | nil => simp [lexLt] at h2
    | cons b bs =>
      simp only [lexLt] at h1 h2
      by_cases hab : a < b
      · simp [hab] at h1
      · by_cases hba : b < a
        · simp [hab, hba] at h2
        · have hEq : a = b := le_antisymm (le_of_not_lt hba) (le_of_not_lt hab)
          simp only [if_neg hab, if_neg hba] at h1
          simp only [if_neg hba, if_neg hab] at h2
          rw [hEq, ih bs h1 h2]

/-- The sorted category pair does not depend on the argument order. -/
lemma sortedPair_comm (a b : String) : sortedPair a b = sortedPair b a := by
  unfold sortedPair
  by_cases h1 : lexLt b.data a.data = true
  · have h2 : lexLt a.data b.data = false := lexLt_asymm _ _ h1
    rw [if_pos h1, if_neg (by simp [h2])]
  · by_cases h2 : lexLt a.data b.data = true
    · rw [if_neg (by simp [h1]), if_pos h2]
    · have hd : b.data = a.data :=
        lexLt_eq_of_not _ _ (by simpa using h1) (by simpa using h2)
      have hab : a = b := by
        rcases a with ⟨ad⟩
        rcases b with ⟨bd⟩
        simp only at hd
        rw [hd]
      rw [hab]

/-- Deduplication preserves membership. -/
lemma mem_dedupList (x : String) : ∀ l : List String, x ∈ dedupList l ↔ x ∈ l := by
  intro l
  induction l with
  | nil => simp [dedupList]
  | cons y ys ih =>
    simp only [dedupList]
    by_cases h : y ∈ dedupList ys
    · rw [if_pos h]
      simp only [List.mem_cons]
      constructor
      · intro hx
        exact Or.inr (ih.mp hx)
      · rintro (rfl | hx)
        · exact h
        · exact ih.mpr hx
    · rw [if_neg h]
      simp only [List.mem_cons, ih]

/-- Deduplication produces a duplicate-free list. -/
lemma nodup_dedupList : ∀ l : List String, (dedupList l).Nodup := by
  intro l
  induction l with
  | nil => simp [dedupList]
  | cons y ys ih =>
    simp only [dedupList]
    by_cases h : y ∈ dedupList ys
    · rw [if_pos h]
      exact ih
    · rw [if_neg h]
      exact List.nodup_cons.mpr ⟨h, ih⟩

/-- The list-level intersection count is the finset intersection cardinality. -/
lemma interCount_eq_card (a b : List String) :
    interCount a b = (a.toFinset ∩ b.toFinset).card := by
  unfold interCount
  rw [List.countP_eq_length_filter]
  have hnd : ((dedupList a).filter (fun x => decide (x ∈ b))).Nodup :=
    List.Nodup.filter _ (nodup_dedupList a)
  rw [← List.toFinset_card_of_nodup hnd]
  congr 1
  ext x
  simp [List.mem_filter, mem_dedupList]

/-- `len(set(a) & set(b))` is symmetric. -/
lemma interCount_comm (a b : List String) : interCount a b = interCount b a := by
  rw [interCount_eq_card, interCount_eq_card, Finset.inter_comm]

/-- The budget dimension is symmetric in the two profiles. -/
lemma budget_comm (p1 p2 : UserProfile) :
    calculate_budget_compatibility p1 p2 = calculate_budget_compatibility p2 p1 := by
  unfold calculate_budget_compatibility
  by_cases h : (pyTruthyQ p1.min_budget && pyTruthyQ p1.max_budget &&
      pyTruthyQ p2.min_budget && pyTruthyQ p2.max_budget) = true
  · have h' : (pyTruthyQ p2.min_budget && pyTruthyQ p2.max_budget &&
        pyTruthyQ p1.min_budget && pyTruthyQ p1.max_budget) = true := by
      simp only [Bool.and_eq_true] at h ⊢
      tauto
    rw [if_pos h, if_pos h']
    simp only []
    rw [max_comm (p1.min_budget.getD 0) (p2.min_budget.getD 0),
      min_comm (p1.max_budget.getD 0) (p2.max_budget.getD 0),
      add_comm (p1.max_budget.getD 0 - p1.min_budget.getD 0)
        (p2.max_budget.getD 0 - p2.min_budget.getD 0)]
  · have h' : ¬(pyTruthyQ p2.min_budget && pyTruthyQ p2.max_budget &&
        pyTruthyQ p1.min_budget && pyTruthyQ p1.max_budget) = true := by
      simp only [Bool.and_eq_true] at h ⊢
      tauto
    rw [if_neg h, if_neg h']

/-- The location dimension is symmetric in the two profiles. -/
lemma location_comm (p1 p2 : UserProfile) :
    calculate_location_compatibility p1 p2 = calculate_location_compatibility p2 p1 := by
  unfold calculate_location_compatibility
  simp only []
  by_cases h : p1.preferred_locations = [] ∨ p2.preferred_locations = []
  · rw [if_pos h, if_pos (Or.symm h)]
  · rw [if_neg h, if_neg (fun hh => h (Or.symm hh))]
    rw [interCount_comm, max_comm p1.preferred_locations.length p2.preferred_locations.length]

/-- A two-branch conditional singleton list, symmetric version. -/
lemma ite_list_comm {c1 c2 : Prop} [Decidable c1] [Decidable c2]
    (h : c1 ↔ c2) {v1 v2 : List ℚ} (hv : v1 = v2) :
    (if c1 then v1 else []) = (if c2 then v2 else []) := by
  by_cases hc : c1
  · rw [if_pos hc, if_pos (h.mp hc), hv]
  · rw [if_neg hc, if_neg (fun hh => hc (h.mpr hh))]

/-- The lifestyle sub-score list is symmetric in the two profiles. -/
lemma lifestyle_scores_comm (p1 p2 : UserProfile) :
    lifestyle_scores p1 p2 = lifestyle_scores p2 p1 := by
  unfold lifestyle_scores
  have hsocial : (if (pyTruthyInt p1.social_level && pyTruthyInt p2.social_level) = true then
      [max 0 (100 - 15 * |(p1.social_level : ℚ) - (p2.social_level : ℚ)|)] else []) =
      (if (pyTruthyInt p2.social_level && pyTruthyInt p1.social_level) = true then
      [max 0 (100 - 15 * |(p2.social_level : ℚ) - (p1.social_level : ℚ)|)] else []) :=
    ite_list_comm (by rw [Bool.and_comm]) (by rw [abs_sub_comm])
  have hsmoke : (if (pyTruthyStr p1.smoker && pyTruthyStr p2.smoker) = true then
      [if p1.smoker = p2.smoker then (100 : ℚ)
       else if (p1.smoker = ("no") ∨ p2.smoker = ("no")) ∧
               (p1.smoker = ("yes") ∨ p2.smoker = ("yes")) then 20
       else 70] else []) =
      (if (pyTruthyStr p2.smoker && pyTruthyStr p1.smoker) = true then
      [if p2.smoker = p1.smoker then (100 : ℚ)
       else if (p2.smoker = ("no") ∨ p1.smoker = ("no")) ∧
               (p2.smoker = ("yes") ∨ p1.smoker = ("yes")) then 20
       else 70] else []) := by
    refine ite_list_comm (by rw [Bool.and_comm]) ?_
    by_cases h1 : p1.smoker = p2.smoker
    · rw [if_pos h1, if_pos h1.symm]
    · have h1' : ¬ p2.smoker = p1.smoker := fun hh => h1 hh.symm
      rw [if_neg h1, if_neg h1']
      by_cases h2 : (p1.smoker = ("no") ∨ p2.smoker = ("no")) ∧
          (p1.smoker = ("yes") ∨ p2.smoker = ("yes"))
      · have h2' : (p2.smoker = ("no") ∨ p1.smoker = ("no")) ∧
            (p2.smoker = ("yes") ∨ p1.smoker = ("yes")) := ⟨h2.1.symm, h2.2.symm⟩
        rw [if_pos h2, if_pos h2']
      · have h2' : ¬((p2.smoker = ("no") ∨ p1.smoker = ("no")) ∧
            (p2.smoker = ("yes") ∨ p1.smoker = ("yes"))) :=
          fun hh => h2 ⟨hh.1.symm, hh.2.symm⟩
        rw [if_neg h2, if_neg h2']
  have hdrink : (if (pyTruthyStr p1.drinking && pyTruthyStr p2.drinking) = true then
      [drinking_table (sortedPair p1.drinking p2.drinking)] else []) =
      (if (pyTruthyStr p2.drinking && pyTruthyStr p1.drinking) = true then
      [drinking_table (sortedPair p2.drinking p1.drinking)] else []) :=
    ite_list_comm (by rw [Bool.and_comm]) (by rw [sortedPair_comm])
  have hpets : (if (pyTruthyStr p1.pets && pyTruthyStr p2.pets) = true then
      [pets_table (sortedPair p1.pets p2.pets)] else []) =
      (if (pyTruthyStr p2.pets && pyTruthyStr p1.pets) = true then
      [pets_table (sortedPair p2.pets p1.pets)] else []) :=
    ite_list_comm (by rw [Bool.and_comm]) (by rw [sortedPair_comm])
  rw [hsocial, hsmoke, hdrink, hpets]

/-- The lifestyle dimension is symmetric in the two profiles. -/
lemma lifestyle_comm (p1 p2 : UserProfile) :
    calculate_lifestyle_compatibility p1 p2 = calculate_lifestyle_compatibility p2 p1 := by
  unfold calculate_lifestyle_compatibility
  rw [lifestyle_scores_comm]

/-- The schedule dimension is symmetric in the two profiles. -/
lemma schedule_comm (p1 p2 : UserProfile) :
    calculate_schedule_compatibility p1 p2 = calculate_schedule_compatibility p2 p1 := by
  unfold calculate_schedule_compatibility
  by_cases h : (pyTruthyStr p1.schedule_type && pyTruthyStr p2.schedule_type) = true
  · have h' : (pyTruthyStr p2.schedule_type && pyTruthyStr p1.schedule_type) = true := by
      rwa [Bool.and_comm] at h
    rw [if_pos h, if_pos h']
    simp only []
    rw [sortedPair_comm]
    by_cases hw : p1.works_from_home = p2.works_from_home
    · have hw' : p2.works_from_home = p1.works_from_home := hw.symm
      rw [if_pos hw, if_pos hw']
    · have hw' : ¬ p2.works_from_home = p1.works_from_home := fun hh => hw hh.symm
      rw [if_neg hw, if_neg hw']
  · have h' : ¬ (pyTruthyStr p2.schedule_type && pyTruthyStr p1.schedule_type) = true := by
      rw [Bool.and_comm]
      exact h
    rw [if_neg h, if_neg h']

/-- The habits dimension is symmetric in the two profiles. -/
lemma habits_comm (p1 p2 : UserProfile) :
    calculate_habits_compatibility p1 p2 = calculate_habits_compatibility p2 p1 := by
  unfold calculate_habits_compatibility
  by_cases h : (pyTruthyInt p1.cleanliness_level && pyTruthyInt p2.cleanliness_level) = true
  · have h' : (pyTruthyInt p2.cleanliness_level && pyTruthyInt p1.cleanliness_level) = true := by
      rwa [Bool.and_comm] at h
    rw [if_pos h, if_pos h']
    simp only []
    rw [abs_sub_comm ((p1.cleanliness_level : ℚ)) ((p2.cleanliness_level : ℚ))]
    by_cases hn : (pyTruthyInt p1.noise_tolerance && pyTruthyInt p2.noise_tolerance) = true
    · have hn' : (pyTruthyInt p2.noise_tolerance && pyTruthyInt p1.noise_tolerance) = true := by
        rwa [Bool.and_comm] at hn
      rw [if_pos hn, if_pos hn']
      rw [abs_sub_comm ((p1.noise_tolerance : ℚ)) ((p2.noise_tolerance : ℚ))]
    · have hn' : ¬ (pyTruthyInt p2.noise_tolerance && pyTruthyInt p1.noise_tolerance) = true := by
        rw [Bool.and_comm]
        exact hn
      rw [if_neg hn, if_neg hn']
  · have h' : ¬ (pyTruthyInt p2.cleanliness_level && pyTruthyInt p1.cleanliness_level) = true := by
      rw [Bool.and_comm]
      exact h
    rw [if_neg h, if_neg h']

/-- The personalized weight vector is symmetric in the two criteria. -/
lemma weights_comm (c1 c2 : Option MatchingCriteria) :
    get_personalized_weights c1 c2 = get_personalized_weights c2 c1 := by
  unfold get_personalized_weights
  by_cases h : c1.isNone = true ∧ c2.isNone = true
  · have h' : c2.isNone = true ∧ c1.isNone = true := ⟨h.2, h.1⟩
    rw [if_pos h, if_pos h']
  · have h' : ¬(c2.isNone = true ∧ c1.isNone = true) := fun hh => h ⟨hh.2, hh.1⟩
    rw [if_neg h, if_neg h']
    simp only []
    rw [add_comm (importanceOf c1 (·.budget_importance)) (importanceOf c2 (·.budget_importance)),
      add_comm (importanceOf c1 (·.location_importance)) (importanceOf c2 (·.location_importance)),
      add_comm (importanceOf c1 (·.lifestyle_importance)) (importanceOf c2 (·.lifestyle_importance)),
      add_comm (importanceOf c1 (·.schedule_importance)) (importanceOf c2 (·.schedule_importance)),
      add_comm (importanceOf c1 (·.habits_importance)) (importanceOf c2 (·.habits_importance))]

/-- The deal-breaker penalty is symmetric under swapping both profiles and
criteria. -/
lemma penalty_comm (p1 p2 : UserProfile) (c1 c2 : Option MatchingCriteria) (today : Date) :
    calculate_deal_breaker_penalty p1 p2 c1 c2 today =
      calculate_deal_breaker_penalty p2 p1 c2 c1 today := by
  unfold calculate_deal_breaker_penalty
  by_cases h : c1.isNone = true ∧ c2.isNone = true
  · have h' : c2.isNone = true ∧ c1.isNone = true := ⟨h.2, h.1⟩
    rw [if_pos h, if_pos h']
  · have h' : ¬(c2.isNone = true ∧ c1.isNone = true) := fun hh => h ⟨hh.2, hh.1⟩
    rw [if_neg h, if_neg h']
    congr 1
    ring

/-- The profile-level compatibility result is symmetric. -/
lemma profiles_comm (p1 p2 : UserProfile) (c1 c2 : Option MatchingCriteria) (today : Date) :
    calculate_compatibility_profiles p1 p2 c1 c2 today =
      calculate_compatibility_profiles p2 p1 c2 c1 today := by
  unfold calculate_compatibility_profiles
  simp only []
  rw [budget_comm, location_comm, lifestyle_comm, schedule_comm, habits_comm,
    weights_comm, penalty_comm]

/-- The full calculator is symmetric, error cases included. -/
lemma calculate_compatibility_comm (u1 u2 : User) (today : Date) :
    calculate_compatibility u1 u2 today = calculate_compatibility u2 u1 today := by
  rcases hp1 : u1.profile with _ | p1 <;> rcases hp2 : u2.profile with _ | p2 <;>
    simp only [calculate_compatibility, hp1, hp2]
  exact profiles_comm p1 p2 u1.matching_criteria u2.matching_criteria today

/-- C2: the compatibility computation is symmetric in its arguments — for
users with profiles, both orders give equal budget, location, lifestyle,
schedule and habits dimension scores and an equal overall score. -/
theorem compatibility_symmetric (u1 u2 : User) (today : Date)
    (h1 : u1.profile.isSome) (h2 : u2.profile.isSome) :
    (calculate_compatibility u1 u2 today).budget_score =
      (calculate_compatibility u2 u1 today).budget_score ∧
    (calculate_compatibility u1 u2 today).location_score =
      (calculate_compatibility u2 u1 today).location_score ∧
    (calculate_compatibility u1 u2 today).lifestyle_score =
      (calculate_compatibility u2 u1 today).lifestyle_score ∧
    (calculate_compatibility u1 u2 today).schedule_score =
      (calculate_compatibility u2 u1 today).schedule_score ∧
    (calculate_compatibility u1 u2 today).habits_score =
      (calculate_compatibility u2 u1 today).habits_score ∧
    (calculate_compatibility u1 u2 today).overall_score =
      (calculate_compatibility u2 u1 today).overall_score := by
  rw [calculate_compatibility_comm u1 u2 today]
  exact ⟨rfl, rfl, rfl, rfl, rfl, rfl⟩

/-- Witness for C2 at two concrete users with profiles. -/
theorem compatibility_symmetric_witness :
    (calculate_compatibility userA userB sampleDate).overall_score =
      (calculate_compatibility userB userA sampleDate).overall_score :=
  (compatibility_symmetric userA userB sampleDate (by rfl) (by rfl)).2.2.2.2.2

end RoommateMatching
